import Mathlib

/-
Verification of the mempool-sniper event pipeline against its source.

Shallow embedding of the Go sources:
  internal/listener/listener.go  (subscription lifecycle, backoff, fetch retry)
  the decoder package            (filtering / decoding of transactions)
  internal/simulator/simulator.go (gas cost, profit, success rate, risk level)
  pkg/types                      (Transaction, DecodedTransaction, ProfitAnalysis)

Machine integers that are big.Int in the source are modelled as Nat (all the
quantities involved - addresses, wei values, gas prices - are unsigned in the
transaction encoding) or as Int where the source performs a signed subtraction.
Float64 arithmetic on the success rate is modelled with exact rationals; the
literals 0.8, 0.7, 0.9 and the thresholds 0.9, 0.7 are far enough apart that
every comparison made by the source is decided the same way in both semantics.
-/

namespace MempoolSniper

/-- Payloads and method selectors: lists of byte values. -/
abbrev Bytes := List Nat

/-- Embedding of pkg/types.Transaction: hash, optional recipient (nil pointer
in Go means contract creation), value and gas price in wei, payload bytes. -/
structure Transaction where
  hash : Nat
  toAddr : Option Nat
  value : Nat
  gasPrice : Option Nat
  gasLimit : Nat
  data : Bytes
  nonce : Nat
  deriving Repr, DecidableEq

/-- Embedding of pkg/types.DecodedTransaction. -/
structure DecodedTransaction where
  transaction : Transaction
  method : String
  methodID : Bytes
  targetContract : Nat
  isSwap : Bool
  swapDirection : String
  tokenIn : Nat
  tokenOut : Nat
  amountIn : Option Nat
  deriving Repr, DecidableEq

/-- Embedding of pkg/types.ProfitAnalysis. Profit, gas cost and net profit are
big.Int in the source; net profit is produced by a big.Int subtraction with no
clamp, so it lives in Int here. -/
structure ProfitAnalysis where
  txHash : Nat
  targetContract : Nat
  method : String
  profit : Int
  gasCost : Int
  netProfit : Int
  successRate : ℚ
  riskLevel : String
  deriving Repr, DecidableEq

/-- Router address from the source registry (Uniswap V2). -/
def UniswapV2Router : Nat := 0x7a250d5630B4cF539739dF2C5dAcb4c659F2488D

/-- Router address from the source registry (Uniswap V3). -/
def UniswapV3Router : Nat := 0xE592427A0AEce92De3Edee1F18E0157C05861564

/-- Router address from the source registry (SushiSwap). -/
def SushiSwapRouter : Nat := 0xd9e1cE17f2641f24aE83637ab66a2cca9C378B9F

/-- Selector of swapExactETHForTokens. -/
def MethodSwapExactETHForTokens : Bytes := [0x7f, 0xf3, 0x6a, 0xb5]

/-- Selector of swapExactTokensForETH. -/
def MethodSwapExactTokensForETH : Bytes := [0x18, 0xcb, 0xaf, 0x05]

/-- Selector of swapExactTokensForTokens. -/
def MethodSwapExactTokensForTokens : Bytes := [0x38, 0xed, 0x17, 0x39]

/-- The SupportedDEX map of the source: router address to display name. -/
def SupportedDEX : List (Nat × String) :=
  [(UniswapV2Router, "Uniswap V2"),
   (UniswapV3Router, "Uniswap V3"),
   (SushiSwapRouter, "SushiSwap")]

/-- The SupportedSwapMethods map of the source: method name to selector. -/
def SupportedSwapMethods : List (String × Bytes) :=
  [("swapExactETHForTokens", MethodSwapExactETHForTokens),
   ("swapExactTokensForETH", MethodSwapExactTokensForETH),
   ("swapExactTokensForTokens", MethodSwapExactTokensForTokens)]

/-- IsSupportedContract from the decoder: membership of the recipient in the
DEX router registry. -/
def IsSupportedContract (address : Nat) : Bool :=
  SupportedDEX.any (fun p => p.1 == address)

/-- IsSwapMethod from the decoder: some registered selector matches the first
four bytes of the method identifier (the source guards both lengths). -/
def IsSwapMethod (methodID : Bytes) : Bool :=
  SupportedSwapMethods.any (fun m =>
    decide (4 ≤ methodID.length) && decide (4 ≤ m.2.length) &&
      (methodID.take 4 == m.2.take 4))

/-- GetMethodName from the decoder: name of the first registry entry whose
selector matches the first four bytes, or "unknown". -/
def GetMethodName (methodID : Bytes) : String :=
  match SupportedSwapMethods.find? (fun m =>
      decide (4 ≤ methodID.length) && decide (4 ≤ m.2.length) &&
        (methodID.take 4 == m.2.take 4)) with
  | some m => m.1
  | none => "unknown"

/-- The Go zero address (also the value of HexToAddress of the zero string). -/
def zeroAddress : Nat := 0

/-- The counters held by the Decoder struct in the source: processed,
filtered, decoded. These are all its counters; it has no others. -/
structure DecoderStats where
  processed : Nat
  filtered : Nat
  decoded : Nat
  deriving Repr, DecidableEq

/-- The switch statement of decodeTransaction that sets the swap direction and
the native-currency token leg from the resolved method name. -/
def setSwapDirection (decodedTx : DecodedTransaction) : DecodedTransaction :=
  if decodedTx.method = "swapExactETHForTokens" then
    { decodedTx with swapDirection := "buy", tokenIn := zeroAddress }
  else if decodedTx.method = "swapExactTokensForETH" then
    { decodedTx with swapDirection := "sell", tokenOut := zeroAddress }
  else if decodedTx.method = "swapExactTokensForTokens" then
    { decodedTx with swapDirection := "swap" }
  else decodedTx

/-- parseTransactionParameters from the decoder: under the length guards of
the source, the input amount is approximated by the native-currency value of
the transaction. -/
def parseTransactionParameters (decodedTx : DecodedTransaction) : DecodedTransaction :=
  let data := decodedTx.transaction.data
  if decodedTx.method = "swapExactETHForTokens" then
    if 4 + 32 * 4 ≤ data.length then
      if 4 + 32 ≤ data.length then
        { decodedTx with amountIn := some decodedTx.transaction.value }
      else decodedTx
    else decodedTx
  else if decodedTx.method = "swapExactTokensForETH" then
    if 4 + 32 * 5 ≤ data.length then
      if 4 + 32 ≤ data.length then
        { decodedTx with amountIn := some decodedTx.transaction.value }
      else decodedTx
    else decodedTx
  else if decodedTx.method = "swapExactTokensForTokens" then
    if 4 + 32 * 5 ≤ data.length then
      if 4 + 32 ≤ data.length then
        { decodedTx with amountIn := some decodedTx.transaction.value }
      else decodedTx
    else decodedTx
  else decodedTx

/-- decodeTransaction from the decoder, together with its counter updates: the
four checks in source order (recipient present, recipient registered, payload
at least 4 bytes, selector registered), each failure incrementing the filtered
counter and returning no event, success building the decoded event and
incrementing the decoded counter. -/
def decodeTransaction (d : DecoderStats) (tx : Transaction) :
    DecoderStats × Option DecodedTransaction :=
  match tx.toAddr with
  | none => ({ d with filtered := d.filtered + 1 }, none)
  | some toA =>
    if !IsSupportedContract toA then
      ({ d with filtered := d.filtered + 1 }, none)
    else if tx.data.length < 4 then
      ({ d with filtered := d.filtered + 1 }, none)
    else
      let methodID := tx.data.take 4
      if !IsSwapMethod methodID then
        ({ d with filtered := d.filtered + 1 }, none)
      else
        let decodedTx : DecodedTransaction :=
          { transaction := tx
            method := GetMethodName methodID
            methodID := methodID
            targetContract := toA
            isSwap := true
            swapDirection := ""
            tokenIn := zeroAddress
            tokenOut := zeroAddress
            amountIn := none }
        let decodedTx := setSwapDirection decodedTx
        let decodedTx := parseTransactionParameters decodedTx
        ({ d with decoded := d.decoded + 1 }, some decodedTx)

/-- FilterTransaction from the decoder: the pure boolean form of the same four
checks, in the same order. -/
def FilterTransaction (tx : Transaction) : Bool :=
  match tx.toAddr with
  | none => false
  | some toA =>
    if !IsSupportedContract toA then false
    else if tx.data.length < 4 then false
    else IsSwapMethod (tx.data.take 4)

/-- The counters held by the Simulator struct in the source: simulated,
profitable, failed. These are all its counters; in particular it keeps no
counter for dropped results. -/
structure SimStats where
  simulated : Nat
  profitable : Nat
  failed : Nat
  deriving Repr, DecidableEq

/-- estimateGasCost from the simulator: (21000 base gas + 50000 swap
surcharge) times the effective gas price, where the effective gas price is the
fallback of 30 Gwei when the transaction carries no gas price (nil) or a zero
gas price, and the transaction's own gas price otherwise. -/
def estimateGasCost (decodedTx : DecodedTransaction) : Int :=
  let baseGas : Nat := 21000
  let additionalGas : Nat := 50000
  let totalGas : Nat := baseGas + additionalGas
  let gasPrice : Nat :=
    match decodedTx.transaction.gasPrice with
    | none => 30000000000
    | some gp => if gp = 0 then 30000000000 else gp
  (gasPrice : Int) * (totalGas : Int)

/-- calculateProfit from the simulator: one percent of the transaction value
minus the gas cost, floored at zero (the source returns big.NewInt(0) when the
difference is negative). -/
def calculateProfit (decodedTx : DecodedTransaction) (gasCost : Int) : Int :=
  let baseProfit : Int := (decodedTx.transaction.value / 100 : Nat)
  let netProfit : Int := baseProfit - gasCost
  if netProfit < 0 then 0 else netProfit

/-- calculateSuccessRate from the simulator, in exact rational arithmetic:
base rate 0.8, multiplied by 0.7 when the value exceeds 1 ETH, and by 0.9 when
a gas price is present and exceeds 100 Gwei. -/
def calculateSuccessRate (decodedTx : DecodedTransaction) : ℚ :=
  let baseRate : ℚ := 8 / 10
  let rate1 : ℚ :=
    if 1000000000000000000 < decodedTx.transaction.value then baseRate * (7 / 10)
    else baseRate
  let rate2 : ℚ :=
    match decodedTx.transaction.gasPrice with
    | some gp => if 100000000000 < gp then rate1 * (9 / 10) else rate1
    | none => rate1
  rate2

/-- assessRiskLevel from the simulator: low at success rate at least 0.9,
medium at least 0.7, high below. -/
def assessRiskLevel (successRate : ℚ) : String :=
  if 9 / 10 ≤ successRate then "low"
  else if 7 / 10 ≤ successRate then "medium"
  else "high"

/-- SimulateTransaction from the simulator (the pure analysis-producing body,
with its counter updates): gas cost, profit via calculateProfit, net profit as
the big.Int subtraction profit minus gas cost with no clamp, success rate and
risk level; increments simulated, and profitable when the net profit is
positive. -/
def SimulateTransaction (s : SimStats) (decodedTx : DecodedTransaction) :
    SimStats × ProfitAnalysis :=
  let s1 := { s with simulated := s.simulated + 1 }
  let gasCost := estimateGasCost decodedTx
  let profit := calculateProfit decodedTx gasCost
  let netProfit := profit - gasCost
  let successRate := calculateSuccessRate decodedTx
  let analysis : ProfitAnalysis :=
    { txHash := decodedTx.transaction.hash
      targetContract := decodedTx.targetContract
      method := decodedTx.method
      profit := profit
      gasCost := gasCost
      netProfit := netProfit
      successRate := successRate
      riskLevel := assessRiskLevel successRate }
  let s2 := if 0 < netProfit then { s1 with profitable := s1.profitable + 1 } else s1
  (s2, analysis)

/-- The result-delivery select of the simulator worker: a non-blocking send on
the profit channel (modelled as a list bounded by its capacity). When the
channel has room the analysis is appended; when it is full the default branch
runs, which only logs - the analysis is dropped and the counters are left
untouched. -/
def sendProfitResult (s : SimStats) (profitChan : List ProfitAnalysis)
    (capacity : Nat) (analysis : ProfitAnalysis) :
    SimStats × List ProfitAnalysis :=
  if profitChan.length < capacity then (s, profitChan ++ [analysis])
  else (s, profitChan)

/-- Initial backoff delay of the reconnect loops (1 second, in seconds). -/
def initialBackoff : Nat := 1

/-- Maximum backoff delay of the reconnect loops (30 seconds, in seconds). -/
def maxBackoff : Nat := 30

/-- The backoff update after a failed attempt in subscribePendingTransactions
and reconnect: double, then cap at the maximum. -/
def nextBackoff (backoff : Nat) : Nat :=
  let doubled := backoff * 2
  if maxBackoff < doubled then maxBackoff else doubled

/-- One transition of the backoff state: a successful reconnection resets the
delay to the initial value (the source assigns time.Second), a failed attempt
doubles and caps it. -/
def backoffStep (backoff : Nat) (success : Bool) : Nat :=
  if success then initialBackoff else nextBackoff backoff

/-- The delay waited before retrying after the (n+1)-th consecutive failed
attempt: the source waits the current backoff, then updates it. -/
def backoffSeq : Nat → Nat
  | 0 => initialBackoff
  | n + 1 => nextBackoff (backoffSeq n)

/-- The listener state touched by Start: the running flag, the transaction
counter and the start timestamp, all mutated under the listener lock. -/
structure ListenerState where
  isRunning : Bool
  txCount : Nat
  startTime : Int
  deriving Repr, DecidableEq

/-- The two error outcomes of Start. -/
inductive StartError where
  | alreadyRunning
  | subscribeFailed
  deriving Repr, DecidableEq

/-- Start from the listener: returns the already-running error with the state
untouched when the running flag is set; otherwise sets the running flag and
the start timestamp, then attempts the head subscription - on failure it
resets only the running flag and returns the subscription error. -/
def ListenerStart (l : ListenerState) (now : Int) (subscribeOk : Bool) :
    ListenerState × Option StartError :=
  if l.isRunning then (l, some StartError.alreadyRunning)
  else
    let l1 := { l with isRunning := true, startTime := now }
    if subscribeOk then (l1, none)
    else ({ l1 with isRunning := false }, some StartError.subscribeFailed)

/-- The listener state touched by Stop: the running flag and whether each of
the two connection handles is non-nil (Close does not nil the pointers). -/
structure ListenerConn where
  isRunning : Bool
  clientNonNil : Bool
  rpcClientNonNil : Bool
  deriving Repr, DecidableEq

/-- Stop from the listener, returning the new state together with the number
of Close calls performed: when running, it clears the running flag and closes
each non-nil handle; when already stopped, the whole body is skipped and
nothing is closed. Stop returns no error in the source. -/
def ListenerStop (l : ListenerConn) : ListenerConn × Nat :=
  if l.isRunning then
    ({ l with isRunning := false },
     (if l.clientNonNil then 1 else 0) + (if l.rpcClientNonNil then 1 else 0))
  else (l, 0)

/-- Outcome of one TransactionByHash lookup in fetchAndProcessTransaction:
the lookup errors, or resolves a transaction that is no longer pending, or
resolves a still-pending transaction (from which the record is built). -/
inductive FetchOutcome where
  | fetchError
  | mined
  | pending (tx : Transaction)
  deriving Repr, DecidableEq

/-- Result of the fetch retry loop: the record constructed (if any), the
sleeps performed between attempts in milliseconds, and the number of lookups
issued. -/
structure FetchResult where
  record : Option Transaction
  sleeps : List Nat
  lookups : Nat
  deriving Repr, DecidableEq

/-- The retry loop of fetchAndProcessTransaction: at loop index i with the
given fuel remaining, an erroring lookup sleeps (i+1)*100 milliseconds and
retries, a mined transaction returns immediately with no record, a pending
transaction yields the record. -/
def fetchLoop (attempts : Nat → FetchOutcome) : Nat → Nat → FetchResult
  | _, 0 => { record := none, sleeps := [], lookups := 0 }
  | i, fuel + 1 =>
    match attempts i with
    | FetchOutcome.fetchError =>
      let rest := fetchLoop attempts (i + 1) fuel
      { record := rest.record
        sleeps := (i + 1) * 100 :: rest.sleeps
        lookups := rest.lookups + 1 }
    | FetchOutcome.mined => { record := none, sleeps := [], lookups := 1 }
    | FetchOutcome.pending tx => { record := some tx, sleeps := [], lookups := 1 }

/-- fetchAndProcessTransaction from the listener: the retry loop runs for at
most 3 iterations starting at index 0. -/
def fetchAndProcessTransaction (attempts : Nat → FetchOutcome) : FetchResult :=
  fetchLoop attempts 0 3

/-- Concrete input: a swap call to the Uniswap V2 router with value 0 and gas
price 1 wei. -/
def txNetProfitBug : Transaction :=
  { hash := 1, toAddr := some UniswapV2Router, value := 0, gasPrice := some 1,
    gasLimit := 0, data := MethodSwapExactETHForTokens, nonce := 0 }

/-- The decoded event the decoder produces from txNetProfitBug. -/
def dtxNetProfitBug : DecodedTransaction :=
  { transaction := txNetProfitBug, method := "swapExactETHForTokens",
    methodID := MethodSwapExactETHForTokens, targetContract := UniswapV2Router,
    isSwap := true, swapDirection := "buy", tokenIn := zeroAddress,
    tokenOut := zeroAddress, amountIn := none }

/-- Concrete input of Scenario A: a swapExactETHForTokens call to the Uniswap
V2 router carrying 1 ETH and no gas price. -/
def scenarioTxA : Transaction :=
  { hash := 2, toAddr := some UniswapV2Router, value := 1000000000000000000,
    gasPrice := none, gasLimit := 0, data := MethodSwapExactETHForTokens,
    nonce := 0 }

/-- The decoded event the decoder produces from scenarioTxA. -/
def dtxScenarioA : DecodedTransaction :=
  { transaction := scenarioTxA, method := "swapExactETHForTokens",
    methodID := MethodSwapExactETHForTokens, targetContract := UniswapV2Router,
    isSwap := true, swapDirection := "buy", tokenIn := zeroAddress,
    tokenOut := zeroAddress, amountIn := none }

/-- Concrete input: a contract-creation transaction (no recipient). -/
def txNoRecipient : Transaction :=
  { hash := 3, toAddr := none, value := 5, gasPrice := none, gasLimit := 0,
    data := [], nonce := 0 }

/-- A concrete profit analysis used to fill the result channel. -/
def analysisA : ProfitAnalysis :=
  { txHash := 10, targetContract := UniswapV2Router,
    method := "swapExactETHForTokens", profit := 100, gasCost := 50,
    netProfit := 50, successRate := 8 / 10, riskLevel := "medium" }

/-- A second concrete profit analysis, the one that gets dropped. -/
def analysisB : ProfitAnalysis :=
  { txHash := 11, targetContract := UniswapV2Router,
    method := "swapExactTokensForETH", profit := 200, gasCost := 70,
    netProfit := 130, successRate := 8 / 10, riskLevel := "medium" }

/-- A lookup trace in which every attempt errors. -/
def attemptsAllError : Nat → FetchOutcome := fun _ => FetchOutcome.fetchError

/-- A lookup trace whose first attempt errors and whose second resolves a
transaction that is already mined. -/
def attemptsMinedSecond : Nat → FetchOutcome :=
  fun i => if i = 0 then FetchOutcome.fetchError else FetchOutcome.mined

theorem setSwapDirection_preserves (decodedTx : DecodedTransaction) :
    (setSwapDirection decodedTx).transaction = decodedTx.transaction ∧
    (setSwapDirection decodedTx).method = decodedTx.method ∧
    (setSwapDirection decodedTx).isSwap = decodedTx.isSwap ∧
    (setSwapDirection decodedTx).methodID = decodedTx.methodID := by
  unfold setSwapDirection
  split_ifs <;> simp

theorem parseTransactionParameters_preserves (decodedTx : DecodedTransaction) :
    (parseTransactionParameters decodedTx).transaction = decodedTx.transaction ∧
    (parseTransactionParameters decodedTx).method = decodedTx.method ∧
    (parseTransactionParameters decodedTx).isSwap = decodedTx.isSwap ∧
    (parseTransactionParameters decodedTx).methodID = decodedTx.methodID ∧
    (parseTransactionParameters decodedTx).swapDirection = decodedTx.swapDirection := by
  unfold parseTransactionParameters
  split_ifs <;> simp [apply_ite, ite_self]

theorem decode_none_form (d : DecoderStats) (tx : Transaction)
    (h : tx.toAddr = none) :
    decodeTransaction d tx = ({ d with filtered := d.filtered + 1 }, none) := by
  unfold decodeTransaction
  rw [h]

theorem decode_unsupported_form (d : DecoderStats) (tx : Transaction) (toA : Nat)
    (hto : tx.toAddr = some toA) (hsup : IsSupportedContract toA = false) :
    decodeTransaction d tx = ({ d with filtered := d.filtered + 1 }, none) := by
  unfold decodeTransaction
  rw [hto]
  simp [hsup]

theorem decode_short_form (d : DecoderStats) (tx : Transaction) (toA : Nat)
    (hto : tx.toAddr = some toA) (hsup : IsSupportedContract toA = true)
    (hlen : tx.data.length < 4) :
    decodeTransaction d tx = ({ d with filtered := d.filtered + 1 }, none) := by
  unfold decodeTransaction
  rw [hto]
  simp [hsup, hlen]

theorem decode_notswap_form (d : DecoderStats) (tx : Transaction) (toA : Nat)
    (hto : tx.toAddr = some toA) (hsup : IsSupportedContract toA = true)
    (hlen : 4 ≤ tx.data.length) (hswap : IsSwapMethod (tx.data.take 4) = false) :
    decodeTransaction d tx = ({ d with filtered := d.filtered + 1 }, none) := by
  unfold decodeTransaction
  rw [hto]
  simp [hsup, hswap, Nat.not_lt.mpr hlen]

theorem decode_success_form (d : DecoderStats) (tx : Transaction) (toA : Nat)
    (hto : tx.toAddr = some toA) (hsup : IsSupportedContract toA = true)
    (hlen : 4 ≤ tx.data.length) (hswap : IsSwapMethod (tx.data.take 4) = true) :
    decodeTransaction d tx =
      ({ d with decoded := d.decoded + 1 },
       some (parseTransactionParameters (setSwapDirection
         { transaction := tx
           method := GetMethodName (tx.data.take 4)
           methodID := tx.data.take 4
           targetContract := toA
           isSwap := true
           swapDirection := ""
           tokenIn := zeroAddress
           tokenOut := zeroAddress
           amountIn := none }))) := by
  unfold decodeTransaction
  rw [hto]
  simp [hsup, hswap, Nat.not_lt.mpr hlen]

theorem fetchLoop_lookups_le (attempts : Nat → FetchOutcome) (i fuel : Nat) :
    (fetchLoop attempts i fuel).lookups ≤ fuel := by
  induction fuel generalizing i with
  | zero => simp [fetchLoop]
  | succ n ih =>
    unfold fetchLoop
    cases attempts i with
    | fetchError => simpa using ih (i + 1)
    | mined => simp
    | pending tx => simp

/-- C1: The claim states that NetProfit equals max(0, grossProfit - gasCost)
and is never negative. The code contradicts it: calculateProfit already
subtracts the gas cost from the one-percent gross heuristic and floors the
difference at zero, and SimulateTransaction then subtracts the gas cost a
second time when filling NetProfit, so the published NetProfit is negative
whenever the floored profit is below the gas cost. At the decoded event
dtxNetProfitBug (value 0, gas price 1 wei; shown here to be exactly what the
decoder produces) the code yields NetProfit = -71000 while the claimed value
is max(0, 0/100 - 71000) = 0. -/
theorem c1_netProfit_negative_at_failing_input :
    (decodeTransaction ⟨0, 0, 0⟩ txNetProfitBug).2 = some dtxNetProfitBug ∧
    (SimulateTransaction ⟨0, 0, 0⟩ dtxNetProfitBug).2.netProfit = -71000 ∧
    max 0 ((txNetProfitBug.value / 100 : Int) -
      estimateGasCost dtxNetProfitBug) = 0 := by
  refine ⟨by decide, by decide, by decide⟩

/-- C2: The decode half of the scenario holds (method swapExactETHForTokens,
direction buy), but the profit field of the produced estimate is not
value/100 and is not independent of the gas cost: calculateProfit subtracts
the estimated gas cost from the one-percent heuristic before the value is
stored. At the Scenario A input (value 1 ETH, no gas price, so the 30 Gwei
fallback applies) the stored profit is 7870000000000000, not the claimed
10000000000000000. -/
theorem c2_counterexample :
    ((decodeTransaction ⟨0, 0, 0⟩ scenarioTxA).2.map
        (fun e => (e.method, e.swapDirection,
          (SimulateTransaction ⟨0, 0, 0⟩ e).2.profit))) =
      some ("swapExactETHForTokens", "buy", 7870000000000000) ∧
    (7870000000000000 : Int) ≠ 10000000000000000 := by
  refine ⟨by decide, by decide⟩

/-- C2 amended: for an input transaction to the registered Uniswap V2 router
whose payload starts with the selector bytes 7f f3 6a b5 and whose value is
1000000000000000000, the Filter/Decode stage produces a DecodedEvent with
method swapExactETHForTokens and direction buy, and the estimate's profit
field equals max(0, value/100 - gasCost) - the one-percent-of-value heuristic
minus the estimated gas cost, floored at zero - rather than value/100 alone. -/
theorem c2_amended_profit_net_of_gas (tx : Transaction) (d : DecoderStats)
    (s : SimStats) (hto : tx.toAddr = some UniswapV2Router)
    (hsel : tx.data.take 4 = MethodSwapExactETHForTokens)
    (hval : tx.value = 1000000000000000000) :
    ∃ e, (decodeTransaction d tx).2 = some e ∧
      e.method = "swapExactETHForTokens" ∧ e.swapDirection = "buy" ∧
      (SimulateTransaction s e).2.profit =
        max 0 (10000000000000000 - estimateGasCost e) := by
  have hlen : 4 ≤ tx.data.length := by
    have hc := congrArg List.length hsel
    simp [MethodSwapExactETHForTokens] at hc
    omega
  have hswap : IsSwapMethod (tx.data.take 4) = true := by
    rw [hsel]; decide
  have hform := decode_success_form d tx UniswapV2Router hto (by decide) hlen hswap
  rw [hsel] at hform
  have hname : GetMethodName MethodSwapExactETHForTokens =
      "swapExactETHForTokens" := by decide
  rw [hname] at hform
  refine ⟨_, by rw [hform], ?_⟩
  set base : DecodedTransaction :=
    { transaction := tx
      method := "swapExactETHForTokens"
      methodID := MethodSwapExactETHForTokens
      targetContract := UniswapV2Router
      isSwap := true
      swapDirection := ""
      tokenIn := zeroAddress
      tokenOut := zeroAddress
      amountIn := none } with hbase
  have hdir : setSwapDirection base =
      { base with swapDirection := "buy", tokenIn := zeroAddress } := by
    unfold setSwapDirection
    rw [if_pos rfl]
  set e := parseTransactionParameters (setSwapDirection base) with he
  have hpres := parseTransactionParameters_preserves (setSwapDirection base)
  have hmethod : e.method = "swapExactETHForTokens" := by
    rw [he, hpres.2.1, hdir]
  have hdirection : e.swapDirection = "buy" := by
    rw [he, hpres.2.2.2.2, hdir]
  have htx : e.transaction = tx := by
    rw [he, hpres.1, hdir]
  have hprofit : (SimulateTransaction s e).2.profit =
      calculateProfit e (estimateGasCost e) := rfl
  refine ⟨hmethod, hdirection, ?_⟩
  rw [hprofit]
  unfold calculateProfit
  rw [htx, hval]
  norm_num
  split_ifs <;> omega

/-- Witness for the amended C2 theorem at the Scenario A input. -/
theorem c2_amended_profit_net_of_gas_witness :
    ∃ e, (decodeTransaction ⟨0, 0, 0⟩ scenarioTxA).2 = some e ∧
      e.method = "swapExactETHForTokens" ∧ e.swapDirection = "buy" ∧
      (SimulateTransaction ⟨0, 0, 0⟩ e).2.profit =
        max 0 (10000000000000000 - estimateGasCost e) :=
  c2_amended_profit_net_of_gas scenarioTxA ⟨0, 0, 0⟩ ⟨0, 0, 0⟩ rfl rfl rfl

/-- C3: The claim states that on a full result channel the estimate is
dropped and a distinct dropped counter is incremented by one. The drop and
the absence of blocking hold, but the Simulator keeps no dropped counter at
all - SimStats mirrors its struct fields exactly (simulated, profitable,
failed) - and the default branch of the send only logs: at a full channel of
capacity 1 the counters come back completely unchanged, so no counter is
incremented at all, in particular none distinct from failed. -/
theorem c3_counterexample :
    sendProfitResult ⟨5, 3, 2⟩ [analysisA] 1 analysisB =
      (⟨5, 3, 2⟩, [analysisA]) := rfl

/-- C3 amended: whenever an estimation worker has an analysis to deliver and
the result channel is at full capacity, the worker does not block: the
estimate is dropped (the channel is returned unchanged) and the simulator
counters are left untouched - no dropped counter exists, only a log line
records the drop. -/
theorem c3_amended_drop_without_counter (s : SimStats)
    (profitChan : List ProfitAnalysis) (capacity : Nat)
    (analysis : ProfitAnalysis) (hfull : capacity ≤ profitChan.length) :
    sendProfitResult s profitChan capacity analysis = (s, profitChan) := by
  unfold sendProfitResult
  rw [if_neg (by omega)]

/-- Witness for the amended C3 theorem at a concrete full channel. -/
theorem c3_amended_drop_without_counter_witness :
    sendProfitResult ⟨0, 0, 0⟩ [analysisB] 1 analysisA =
      (⟨0, 0, 0⟩, [analysisB]) :=
  c3_amended_drop_without_counter ⟨0, 0, 0⟩ [analysisB] 1 analysisA (by simp)

/-- C4: In the reconnect and resubscribe loops the backoff delay starts at
1 second, each failed attempt doubles it and caps it at 30 seconds - so the
delay sequence over consecutive failures is non-decreasing and never exceeds
the cap - and a successful reconnection resets it to the initial 1-second
delay. -/
theorem c4_backoff_policy :
    backoffSeq 0 = 1 ∧
    (∀ n, backoffSeq (n + 1) = min (2 * backoffSeq n) 30) ∧
    (∀ n, backoffSeq n ≤ backoffSeq (n + 1)) ∧
    (∀ n, backoffSeq n ≤ 30) ∧
    (∀ b, backoffStep b true = initialBackoff) ∧
    initialBackoff = 1 := by
  have hdouble : ∀ n, backoffSeq (n + 1) = min (2 * backoffSeq n) 30 := by
    intro n
    show (if 30 < backoffSeq n * 2 then 30 else backoffSeq n * 2) =
      min (2 * backoffSeq n) 30
    split_ifs with h <;> omega
  have hcap : ∀ n, backoffSeq n ≤ 30 := by
    intro n
    cases n with
    | zero => simp [backoffSeq, initialBackoff]
    | succ m => rw [hdouble m]; omega
  refine ⟨rfl, hdouble, ?_, hcap, fun b => rfl, rfl⟩
  intro n
  have := hcap n
  rw [hdouble n]
  omega

theorem take4_of_isSwapMethod (mid : Bytes) (hlen4 : mid.length = 4)
    (h : IsSwapMethod mid = true) :
    mid = MethodSwapExactETHForTokens ∨ mid = MethodSwapExactTokensForETH ∨
      mid = MethodSwapExactTokensForTokens := by
  have hmid : mid.take 4 = mid := List.take_of_length_le (by omega)
  have h1 : MethodSwapExactETHForTokens.take 4 = MethodSwapExactETHForTokens := rfl
  have h2 : MethodSwapExactTokensForETH.take 4 = MethodSwapExactTokensForETH := rfl
  have h3 : MethodSwapExactTokensForTokens.take 4 =
    MethodSwapExactTokensForTokens := rfl
  simp only [IsSwapMethod, SupportedSwapMethods, List.any_cons, List.any_nil,
    Bool.or_eq_true, Bool.and_eq_true, beq_iff_eq, decide_eq_true_eq,
    hmid, h1, h2, h3, hlen4, Bool.or_false] at h
  tauto

theorem decode_isSome_iff (d : DecoderStats) (tx : Transaction) :
    (decodeTransaction d tx).2.isSome = true ↔
      ((∃ a, tx.toAddr = some a ∧ IsSupportedContract a = true) ∧
        4 ≤ tx.data.length ∧ IsSwapMethod (tx.data.take 4) = true) := by
  rcases hto : tx.toAddr with _ | toA
  · rw [decode_none_form d tx hto]
    simp [hto]
  · by_cases hsup : IsSupportedContract toA = true
    · by_cases hlen : 4 ≤ tx.data.length
      · by_cases hswap : IsSwapMethod (tx.data.take 4) = true
        · rw [decode_success_form d tx toA hto hsup hlen hswap]
          simp only [Option.isSome_some, true_iff]
          exact ⟨⟨toA, rfl, hsup⟩, hlen, hswap⟩
        · rw [decode_notswap_form d tx toA hto hsup hlen (by simpa using hswap)]
          simp [hto, hsup, hlen, hswap]
      · rw [decode_short_form d tx toA hto hsup (by omega)]
        simp [hto, hsup, hlen]
    · rw [decode_unsupported_form d tx toA hto (by simpa using hsup)]
      simp [hto, hsup]

theorem decode_filtered_stats (d : DecoderStats) (tx : Transaction)
    (he : (decodeTransaction d tx).2 = none) :
    (decodeTransaction d tx).1 = { d with filtered := d.filtered + 1 } := by
  rcases hto : tx.toAddr with _ | toA
  · rw [decode_none_form d tx hto]
  · by_cases hsup : IsSupportedContract toA = true
    · by_cases hlen : 4 ≤ tx.data.length
      · by_cases hswap : IsSwapMethod (tx.data.take 4) = true
        · rw [decode_success_form d tx toA hto hsup hlen hswap] at he
          simp at he
        · rw [decode_notswap_form d tx toA hto hsup hlen (by simpa using hswap)]
      · rw [decode_short_form d tx toA hto hsup (by omega)]
    · rw [decode_unsupported_form d tx toA hto (by simpa using hsup)]

theorem decode_some_properties (d : DecoderStats) (tx : Transaction)
    (e : DecodedTransaction) (he : (decodeTransaction d tx).2 = some e) :
    (decodeTransaction d tx).1 = { d with decoded := d.decoded + 1 } ∧
    e.isSwap = true ∧ ∃ m ∈ SupportedSwapMethods, e.methodID = m.2 := by
  rcases hto : tx.toAddr with _ | toA
  · rw [decode_none_form d tx hto] at he
    simp at he
  · by_cases hsup : IsSupportedContract toA = true
    · by_cases hlen : 4 ≤ tx.data.length
      · by_cases hswap : IsSwapMethod (tx.data.take 4) = true
        · have hform := decode_success_form d tx toA hto hsup hlen hswap
          rw [hform] at he
          have he' : parseTransactionParameters (setSwapDirection
              { transaction := tx
                method := GetMethodName (tx.data.take 4)
                methodID := tx.data.take 4
                targetContract := toA
                isSwap := true
                swapDirection := ""
                tokenIn := zeroAddress
                tokenOut := zeroAddress
                amountIn := none }) = e := by
            simpa using he
          subst he'
          refine ⟨by rw [hform], ?_, ?_⟩
          · rw [(parseTransactionParameters_preserves _).2.2.1,
              (setSwapDirection_preserves _).2.2.1]
          · have hmid : (parseTransactionParameters (setSwapDirection
                { transaction := tx
                  method := GetMethodName (tx.data.take 4)
                  methodID := tx.data.take 4
                  targetContract := toA
                  isSwap := true
                  swapDirection := ""
                  tokenIn := zeroAddress
                  tokenOut := zeroAddress
                  amountIn := none })).methodID = tx.data.take 4 := by
              rw [(parseTransactionParameters_preserves _).2.2.2.1,
                (setSwapDirection_preserves _).2.2.2]
            rw [hmid]
            have hlen4 : (tx.data.take 4).length = 4 := by
              rw [List.length_take]
              omega
            rcases take4_of_isSwapMethod _ hlen4 hswap with h | h | h
            · exact ⟨("swapExactETHForTokens", MethodSwapExactETHForTokens),
                by simp [SupportedSwapMethods], h⟩
            · exact ⟨("swapExactTokensForETH", MethodSwapExactTokensForETH),
                by simp [SupportedSwapMethods], h⟩
            · exact ⟨("swapExactTokensForTokens", MethodSwapExactTokensForTokens),
                by simp [SupportedSwapMethods], h⟩
        · rw [decode_notswap_form d tx toA hto hsup hlen (by simpa using hswap)] at he
          simp at he
      · rw [decode_short_form d tx toA hto hsup (by omega)] at he
        simp at he
    · rw [decode_unsupported_form d tx toA hto (by simpa using hsup)] at he
      simp at he

/-- C5: A transaction handed to the Filter/Decode stage yields a DecodedEvent
exactly when the recipient is present, the recipient is in the DEX-router
registry, the payload is at least 4 bytes and its first 4 bytes are a
registered swap selector. The embedding performs those checks in the source
order; the last two conjuncts witness the short-circuiting (when an earlier
check fails the payload is never consulted: the outcome is the same with the
payload erased). Every failure increments the filtered counter by exactly 1
and yields no event; every produced event has isSwap = true and its selector
is a member of the registry. -/
theorem c5_filter_decode_characterization (d : DecoderStats) (tx : Transaction) :
    ((decodeTransaction d tx).2.isSome = true ↔
      ((∃ a, tx.toAddr = some a ∧ IsSupportedContract a = true) ∧
        4 ≤ tx.data.length ∧ IsSwapMethod (tx.data.take 4) = true)) ∧
    ((decodeTransaction d tx).2 = none →
      (decodeTransaction d tx).1 = { d with filtered := d.filtered + 1 }) ∧
    (∀ e, (decodeTransaction d tx).2 = some e →
      (decodeTransaction d tx).1 = { d with decoded := d.decoded + 1 } ∧
      e.isSwap = true ∧ ∃ m ∈ SupportedSwapMethods, e.methodID = m.2) ∧
    (tx.toAddr = none →
      decodeTransaction d tx = decodeTransaction d { tx with data := [] }) ∧
    (∀ a, tx.toAddr = some a → IsSupportedContract a = false →
      decodeTransaction d tx = decodeTransaction d { tx with data := [] }) := by
  refine ⟨decode_isSome_iff d tx, decode_filtered_stats d tx,
    fun e he => decode_some_properties d tx e he, ?_, ?_⟩
  · intro h0
    rw [decode_none_form d tx h0, decode_none_form d { tx with data := [] } h0]
  · intro a ha hbad
    rw [decode_unsupported_form d tx a ha hbad,
      decode_unsupported_form d { tx with data := [] } a ha hbad]

/-- Witness for c5_filter_decode_characterization: the Scenario A transaction
passes all four checks while the recipient-free transaction is filtered with
the filtered counter incremented by exactly 1. -/
theorem c5_filter_decode_characterization_witness :
    (decodeTransaction ⟨0, 0, 0⟩ scenarioTxA).2.isSome = true ∧
    (decodeTransaction ⟨0, 0, 0⟩ txNoRecipient).1 =
      { processed := 0, filtered := 1, decoded := 0 } := by
  constructor
  · exact (c5_filter_decode_characterization ⟨0, 0, 0⟩ scenarioTxA).1.mpr
      ⟨⟨UniswapV2Router, rfl, by decide⟩, by decide, by decide⟩
  · exact (c5_filter_decode_characterization ⟨0, 0, 0⟩ txNoRecipient).2.1 (by decide)

/-- C6: The already-running half of the claim holds, but the state is not
fully unchanged when the head subscription fails to open: Start has already
overwritten the start timestamp before subscribing, and the error path
restores only the running flag. At a stopped listener with start timestamp 0,
calling Start at time 5 with a failing subscription returns the subscription
error yet leaves a state different from the original (its timestamp is 5). -/
theorem c6_counterexample :
    (ListenerStart ⟨false, 0, 0⟩ 5 false).2 = some StartError.subscribeFailed ∧
    (ListenerStart ⟨false, 0, 0⟩ 5 false).1 ≠ ⟨false, 0, 0⟩ := by decide

/-- C6 amended: Start returns the already-running error exactly when the
listener is already running, leaving the state unchanged in that case; on a
successful call it sets the running flag (and the start timestamp); when the
head subscription fails to open it returns an error with the running flag
restored to false and the transaction count unchanged, but with the start
timestamp keeping the value assigned during the call, so the state is not
fully restored. -/
theorem c6_amended_start (l : ListenerState) (now : Int) (subscribeOk : Bool) :
    (l.isRunning = true →
      ListenerStart l now subscribeOk = (l, some StartError.alreadyRunning)) ∧
    ((ListenerStart l now subscribeOk).2 = some StartError.alreadyRunning →
      l.isRunning = true) ∧
    (l.isRunning = false → subscribeOk = true →
      ListenerStart l now subscribeOk =
        ({ l with isRunning := true, startTime := now }, none)) ∧
    (l.isRunning = false → subscribeOk = false →
      ListenerStart l now subscribeOk =
        ({ l with startTime := now }, some StartError.subscribeFailed)) := by
  unfold ListenerStart
  rcases l with ⟨run, cnt, st⟩
  cases run <;> cases subscribeOk <;> simp

/-- Witness for the amended C6 theorem: a concrete call on a stopped listener
whose head subscription fails. -/
theorem c6_amended_start_witness :
    ListenerStart ⟨false, 17, 3⟩ 5 false =
      (⟨false, 17, 5⟩, some StartError.subscribeFailed) :=
  (c6_amended_start ⟨false, 17, 3⟩ 5 false).2.2.2 rfl rfl

/-- C7: Stop is idempotent: the first call on a running listener clears the
running flag and closes each non-nil connection handle exactly once; a second
call finds the running flag false, performs no close at all, and leaves the
state exactly as the single Stop left it (Stop returns no error in the
source). -/
theorem c7_stop_idempotent (l : ListenerConn) :
    (l.isRunning = true → (ListenerStop l).1.isRunning = false) ∧
    (l.isRunning = true → l.clientNonNil = true → l.rpcClientNonNil = true →
      (ListenerStop l).2 = 2) ∧
    (ListenerStop (ListenerStop l).1).1 = (ListenerStop l).1 ∧
    (ListenerStop (ListenerStop l).1).2 = 0 := by
  rcases l with ⟨run, c, r⟩
  cases run <;> cases c <;> cases r <;> simp [ListenerStop]

/-- Witness for c7_stop_idempotent at a running listener holding both
handles. -/
theorem c7_stop_idempotent_witness :
    (ListenerStop ⟨true, true, true⟩).1.isRunning = false ∧
    (ListenerStop ⟨true, true, true⟩).2 = 2 ∧
    (ListenerStop (ListenerStop ⟨true, true, true⟩).1).2 = 0 := by
  have h := c7_stop_idempotent ⟨true, true, true⟩
  exact ⟨h.1 rfl, h.2.1 rfl rfl rfl, h.2.2.2⟩

/-- C8: For every transaction identifier, the fetch stage issues at most 3
lookups; the all-failing trace sleeps the increasing delays 100, 200, 300 and
abandons the identifier with no record; when an attempt resolves a
transaction that is already mined (after k failed lookups) the identifier is
discarded immediately - no record, exactly k+1 lookups, no further attempts -
and a still-pending resolution yields the record with the same cutoff. -/
theorem c8_fetch_retry_policy (attempts : Nat → FetchOutcome) :
    (fetchAndProcessTransaction attempts).lookups ≤ 3 ∧
    ((∀ j, j < 3 → attempts j = FetchOutcome.fetchError) →
      fetchAndProcessTransaction attempts =
        { record := none, sleeps := [100, 200, 300], lookups := 3 }) ∧
    (∀ k, k < 3 → (∀ j, j < k → attempts j = FetchOutcome.fetchError) →
      attempts k = FetchOutcome.mined →
      (fetchAndProcessTransaction attempts).record = none ∧
      (fetchAndProcessTransaction attempts).lookups = k + 1 ∧
      (fetchAndProcessTransaction attempts).sleeps =
        (List.range k).map (fun j => (j + 1) * 100)) ∧
    (∀ k tx, k < 3 → (∀ j, j < k → attempts j = FetchOutcome.fetchError) →
      attempts k = FetchOutcome.pending tx →
      (fetchAndProcessTransaction attempts).record = some tx ∧
      (fetchAndProcessTransaction attempts).lookups = k + 1 ∧
      (fetchAndProcessTransaction attempts).sleeps =
        (List.range k).map (fun j => (j + 1) * 100)) := by
  refine ⟨fetchLoop_lookups_le attempts 0 3, ?_, ?_, ?_⟩
  · intro h
    have h0 := h 0 (by omega)
    have h1 := h 1 (by omega)
    have h2 := h 2 (by omega)
    simp [fetchAndProcessTransaction, fetchLoop, h0, h1, h2]
  · intro k hk hprev hmined
    interval_cases k
    · simp [fetchAndProcessTransaction, fetchLoop, hmined]
    · have h0 := hprev 0 (by omega)
      simp [fetchAndProcessTransaction, fetchLoop, h0, hmined, List.range_succ]
    · have h0 := hprev 0 (by omega)
      have h1 := hprev 1 (by omega)
      simp [fetchAndProcessTransaction, fetchLoop, h0, h1, hmined, List.range_succ]
  · intro k tx hk hprev hpend
    interval_cases k
    · simp [fetchAndProcessTransaction, fetchLoop, hpend]
    · have h0 := hprev 0 (by omega)
      simp [fetchAndProcessTransaction, fetchLoop, h0, hpend, List.range_succ]
    · have h0 := hprev 0 (by omega)
      have h1 := hprev 1 (by omega)
      simp [fetchAndProcessTransaction, fetchLoop, h0, h1, hpend, List.range_succ]

/-- Witness for c8_fetch_retry_policy: the all-error trace abandons the
identifier after exactly three lookups with sleeps 100, 200, 300, and the
error-then-mined trace discards it after exactly two lookups. -/
theorem c8_fetch_retry_policy_witness :
    fetchAndProcessTransaction attemptsAllError =
      { record := none, sleeps := [100, 200, 300], lookups := 3 } ∧
    (fetchAndProcessTransaction attemptsMinedSecond).record = none ∧
    (fetchAndProcessTransaction attemptsMinedSecond).lookups = 2 := by
  have hall := (c8_fetch_retry_policy attemptsAllError).2.1 (fun j hj => rfl)
  have hmined := (c8_fetch_retry_policy attemptsMinedSecond).2.2.1 1 (by omega)
    (fun j hj => by interval_cases j; rfl) rfl
  exact ⟨hall, hmined.1, hmined.2.1⟩

/-- C9: For every decoded event the estimated gas cost is (21000 base gas +
50000 swap surcharge) times the effective gas price in exact integer
arithmetic, where the effective gas price is the transaction's own gas price
when that price is positive and the configured 30 Gwei fallback when the gas
price is absent or zero. -/
theorem c9_gas_cost_formula (decodedTx : DecodedTransaction) :
    (∀ gp, decodedTx.transaction.gasPrice = some gp → 0 < gp →
      estimateGasCost decodedTx = (21000 + 50000) * (gp : Int)) ∧
    (decodedTx.transaction.gasPrice = none →
      estimateGasCost decodedTx = (21000 + 50000) * 30000000000) ∧
    (decodedTx.transaction.gasPrice = some 0 →
      estimateGasCost decodedTx = (21000 + 50000) * 30000000000) := by
  unfold estimateGasCost
  refine ⟨?_, ?_, ?_⟩
  · intro gp hgp hpos
    simp only [hgp]
    rw [if_neg (by omega)]
    push_cast
    ring
  · intro h
    simp only [h]
    norm_num
  · intro h
    simp only [h]
    norm_num

/-- Witness for c9_gas_cost_formula: a decoded event with gas price 1 wei and
one with no gas price. -/
theorem c9_gas_cost_formula_witness :
    estimateGasCost dtxNetProfitBug = (21000 + 50000) * 1 ∧
    estimateGasCost dtxScenarioA = (21000 + 50000) * 30000000000 :=
  ⟨(c9_gas_cost_formula dtxNetProfitBug).1 1 rfl (by norm_num),
   (c9_gas_cost_formula dtxScenarioA).2.1 rfl⟩

/-- C10: For every decoded event the computed success rate is at most 0.8:
the base rate 0.8 is only ever multiplied by the penalty factors 0.7 and 0.9,
never increased. Hence the risk level of an analysis is always medium or
high; the low bucket, which needs a success rate of at least 0.9, is
unreachable. -/
theorem c10_success_rate_risk (decodedTx : DecodedTransaction) :
    calculateSuccessRate decodedTx ≤ 8 / 10 ∧
    assessRiskLevel (calculateSuccessRate decodedTx) ≠ "low" ∧
    (assessRiskLevel (calculateSuccessRate decodedTx) = "medium" ∨
     assessRiskLevel (calculateSuccessRate decodedTx) = "high") := by
  have hcases : calculateSuccessRate decodedTx = 8 / 10 ∨
      calculateSuccessRate decodedTx = 8 / 10 * (7 / 10) ∨
      calculateSuccessRate decodedTx = 8 / 10 * (9 / 10) ∨
      calculateSuccessRate decodedTx = 8 / 10 * (7 / 10) * (9 / 10) := by
    unfold calculateSuccessRate
    rcases hgp : decodedTx.transaction.gasPrice with _ | gp <;>
      simp only [hgp] <;> split_ifs <;> norm_num
  have e1 : assessRiskLevel (8 / 10) = "medium" := by
    unfold assessRiskLevel
    rw [if_neg (by norm_num), if_pos (by norm_num)]
  have e2 : assessRiskLevel (8 / 10 * (7 / 10)) = "high" := by
    unfold assessRiskLevel
    rw [if_neg (by norm_num), if_neg (by norm_num)]
  have e3 : assessRiskLevel (8 / 10 * (9 / 10)) = "medium" := by
    unfold assessRiskLevel
    rw [if_neg (by norm_num), if_pos (by norm_num)]
  have e4 : assessRiskLevel (8 / 10 * (7 / 10) * (9 / 10)) = "high" := by
    unfold assessRiskLevel
    rw [if_neg (by norm_num), if_neg (by norm_num)]
  rcases hcases with h | h | h | h <;> rw [h]
  · exact ⟨by norm_num, by rw [e1]; decide, Or.inl e1⟩
  · exact ⟨by norm_num, by rw [e2]; decide, Or.inr e2⟩
  · exact ⟨by norm_num, by rw [e3]; decide, Or.inl e3⟩
  · exact ⟨by norm_num, by rw [e4]; decide, Or.inr e4⟩

end MempoolSniper
